import Mathlib

/-!
Verification of the Smart-Money-Concepts signal engine
(`DSEtrade/dseapp/signals/`): a shallow embedding over ℚ of the candle
utilities, the detectors (structure, liquidity, FVG, order block, breaker)
and the orchestrating `ProfessionalSMCEngine`, together with theorems
settling the specification claims. Python floats are idealised as exact
rationals; the Python `round(x, n)` (banker rounding) is modelled by
`pyRound`/`roundTo`; the wall clock read by `datetime.now()` is modelled by
an explicit `now` parameter threaded to every `SignalResult` construction.
-/

set_option maxRecDepth 4000

/-- One OHLC(V) candle. Candle dictionaries in the source expose
`time, open, high, low, close` and an optional `volume`; `open` is a Lean
keyword so that field is named `opn`. -/
structure Candle where
  time : ℚ
  opn : ℚ
  high : ℚ
  low : ℚ
  close : ℚ
  volume : Option ℚ
deriving Repr, DecidableEq

/-- Default candle used to totalise list indexing (the Python code only
indexes in bounds, so the default is never observed there). -/
def dfltCandle : Candle := ⟨0, 0, 0, 0, 0, none⟩

/-- `candles[i]` as a total function. -/
def nthC (xs : List Candle) (i : Nat) : Candle := xs.getD i dfltCandle

/-- `prices[i]` as a total function. -/
def nthQ (xs : List ℚ) (i : Nat) : ℚ := xs.getD i 0

/-- Python slice `xs[-n:]`. -/
def lastN {α : Type} (xs : List α) (n : Nat) : List α := xs.drop (xs.length - n)

/-- `max` of a Python list (0 on the empty list, never reached in source). -/
def listMax (xs : List ℚ) : ℚ :=
  match xs with
  | [] => 0
  | y :: ys => ys.foldl max y

/-- `min` of a Python list (0 on the empty list, never reached in source). -/
def listMin (xs : List ℚ) : ℚ :=
  match xs with
  | [] => 0
  | y :: ys => ys.foldl min y

/-- Python 3 `round` to an integer: round-half-to-even. -/
def pyRound (q : ℚ) : ℤ :=
  let f := ⌊q⌋
  let r := q - f
  if r < 1/2 then f
  else if 1/2 < r then f + 1
  else if f % 2 = 0 then f else f + 1

/-- Python `round(q, n)`. -/
def roundTo (n : Nat) (q : ℚ) : ℚ := (pyRound (q * 10 ^ n) : ℚ) / 10 ^ n

/-- How Python str-formats a bool inside an f-string. -/
def pyBool (b : Bool) : String := if b then "True" else "False"

/-- Python `a or b` on numbers: `a` unless it is falsy (zero). -/
def pyOr (a b : ℚ) : ℚ := if a = 0 then b else a

/-! ### `signals/utils.py` -/

/-- `utils.calculate_atr(candles, period)`: mean of the last `period` true
ranges, 0 when fewer than `period+1` candles exist. -/
def calculate_atr (candles : List Candle) (period : Nat) : ℚ :=
  if candles.length < period + 1 then 0
  else
    let tr_values := (List.range (candles.length - 1)).map (fun k =>
      let cur := nthC candles (k + 1)
      let prev_close := (nthC candles k).close
      max (cur.high - cur.low) (max |cur.high - prev_close| |cur.low - prev_close|))
    if tr_values.length < period then 0
    else
      let tail := lastN tr_values period
      tail.sum / (tail.length : ℚ)

/-- A detected swing point: series index, price and candle time. -/
structure SwingPoint where
  index : Nat
  price : ℚ
  time : ℚ
deriving Repr, DecidableEq

/-- The two lists returned by `find_swing_points`. -/
structure Swings where
  swing_highs : List SwingPoint
  swing_lows : List SwingPoint
deriving Repr, DecidableEq

/-- The Python loop indices `range(left_bars, len(candles) - right_bars)`. -/
def swingIdxs (len l r : Nat) : List Nat := (List.range (len - r - l)).map (· + l)

/-- The swing-high test at index `i`: strictly above every high `left_bars`
back and `right_bars` forward (`all(highs[i] > highs[i-j] ...)`). -/
def isSwingHighAt (highs : List ℚ) (l r i : Nat) : Bool :=
  ((List.range l).all fun j => decide (nthQ highs (i - (j + 1)) < nthQ highs i)) &&
  ((List.range r).all fun j => decide (nthQ highs (i + (j + 1)) < nthQ highs i))

/-- The swing-low test at index `i`: strictly below every low in the window. -/
def isSwingLowAt (lows : List ℚ) (l r i : Nat) : Bool :=
  ((List.range l).all fun j => decide (nthQ lows i < nthQ lows (i - (j + 1)))) &&
  ((List.range r).all fun j => decide (nthQ lows i < nthQ lows (i + (j + 1))))

/-- `utils.find_swing_points(candles, left_bars, right_bars)`. -/
def find_swing_points (candles : List Candle) (left_bars right_bars : Nat) : Swings :=
  let highs := candles.map (·.high)
  let lows := candles.map (·.low)
  { swing_highs := (swingIdxs candles.length left_bars right_bars).filterMap (fun i =>
      if isSwingHighAt highs left_bars right_bars i then
        some ⟨i, nthQ highs i, (nthC candles i).time⟩
      else none),
    swing_lows := (swingIdxs candles.length left_bars right_bars).filterMap (fun i =>
      if isSwingLowAt lows left_bars right_bars i then
        some ⟨i, nthQ lows i, (nthC candles i).time⟩
      else none) }

/-! ### `signals/structure.py` -/

/-- `structure.find_swing_points`: same scan as the utils version (its
early-out loops with `break` compute the same strict-window conditions),
behind an explicit short-series gate. -/
def structure_find_swing_points (candles : List Candle) (l r : Nat) : Swings :=
  if candles.length < l + r + 1 then ⟨[], []⟩
  else find_swing_points candles l r

/-- Python `xs[-k]` for swing-point lists. -/
def spLast (xs : List SwingPoint) (k : Nat) : SwingPoint :=
  xs.getD (xs.length - k) ⟨0, 0, 0⟩

/-- `structure.detect_structure(candles)`. -/
def detect_structure (candles : List Candle) : String :=
  if candles.length < 10 then "ranging"
  else
    let swings := structure_find_swing_points candles 3 3
    if swings.swing_highs.length < 2 ∨ swings.swing_lows.length < 2 then "ranging"
    else
      let recent_highs := lastN swings.swing_highs 3
      let recent_lows := lastN swings.swing_lows 3
      let last_close := (nthC candles (candles.length - 1)).close
      if 2 ≤ recent_highs.length ∧ 2 ≤ recent_lows.length ∧
         (spLast recent_highs 2).price < (spLast recent_highs 1).price ∧
         (spLast recent_lows 2).price < (spLast recent_lows 1).price then "bullish"
      else if 2 ≤ recent_highs.length ∧ 2 ≤ recent_lows.length ∧
         (spLast recent_highs 1).price < (spLast recent_highs 2).price ∧
         (spLast recent_lows 1).price < (spLast recent_lows 2).price then "bearish"
      else if 0 < swings.swing_lows.length ∧
         |last_close - (spLast swings.swing_lows 1).price| / (spLast swings.swing_lows 1).price
           < 0.02 then "accumulation"
      else if 0 < swings.swing_highs.length ∧
         |last_close - (spLast swings.swing_highs 1).price| / (spLast swings.swing_highs 1).price
           < 0.02 then "distribution"
      else "ranging"

/-- `structure.detect_mss(candles)`. -/
def detect_mss (candles : List Candle) : Bool :=
  if candles.length < 10 then false
  else
    let swings := structure_find_swing_points candles 3 3
    if swings.swing_highs.length < 2 ∨ swings.swing_lows.length < 2 then false
    else
      let current_price := (nthC candles (candles.length - 1)).close
      let prev_high := (spLast swings.swing_highs 2).price
      let prev_low := (spLast swings.swing_lows 2).price
      decide (prev_high * 1.001 < current_price) || decide (current_price < prev_low * 0.999)

/-! ### `signals/liquidity.py` -/

/-- `liquidity.detect_liquidity_sweep(candles)`: wick beyond the high/low
envelope of the preceding 9 candles with a close back inside it. -/
def detect_liquidity_sweep (candles : List Candle) : Bool :=
  if candles.length < 10 then false
  else
    let last_candle := nthC candles (candles.length - 1)
    let prev_candles := (lastN candles 10).dropLast
    if prev_candles.length = 0 then false
    else
      let prev_high := listMax (prev_candles.map (·.high))
      let prev_low := listMin (prev_candles.map (·.low))
      decide (prev_high < last_candle.high ∧ last_candle.close < prev_high) ||
      decide (last_candle.low < prev_low ∧ prev_low < last_candle.close)

/-- The volume-key presence test over `candles[-10:]` in `volume_confirmed_sweep`. -/
def vcsHasVolume (candles : List Candle) : Bool :=
  (lastN candles 10).any (fun c => c.volume.isSome)

/-- The last-candle volume (default 0) in `volume_confirmed_sweep`. -/
def vcsLastVol (candles : List Candle) : ℚ :=
  (nthC candles (candles.length - 1)).volume.getD 0

/-- The positive volumes among `candles[-10:-1]` in `volume_confirmed_sweep`. -/
def vcsVols (candles : List Candle) : List ℚ :=
  ((lastN candles 10).dropLast).filterMap (fun c =>
    let v := c.volume.getD 0
    if 0 < v then some v else none)

/-- The trailing average volume in `volume_confirmed_sweep`. -/
def vcsAvg (candles : List Candle) : ℚ :=
  (vcsVols candles).sum / ((vcsVols candles).length : ℚ)

/-- `liquidity.volume_confirmed_sweep(candles)`: a boolean — the sweep of
`detect_liquidity_sweep`, further gated (when volume data is present and a
positive trailing volume exists) on the last volume exceeding 1.5× the
trailing average. -/
def volume_confirmed_sweep (candles : List Candle) : Bool :=
  if candles.length < 20 then false
  else
    let sweep_detected := detect_liquidity_sweep candles
    if !sweep_detected then false
    else if !vcsHasVolume candles then sweep_detected
    else if vcsVols candles = [] then sweep_detected
    else decide (vcsAvg candles * 1.5 < vcsLastVol candles)

/-! ### `signals/fvg.py` -/

/-- A detected fair value gap (the dict built by `detect_fvg`). -/
structure FVG where
  type : String
  top : ℚ
  bottom : ℚ
  mid : ℚ
  entry : ℚ
  time : ℚ
  range : ℚ
  price : ℚ
  index : Nat
deriving Repr, DecidableEq

/-- The loop body of `detect_fvg` at triple `(candles[i], candles[i+1],
candles[i+2])`: `none` when the triple records no gap. -/
def fvgAt (candles : List Candle) (i : Nat) : Option FVG :=
  let c1 := nthC candles i
  let c2 := nthC candles (i + 1)
  let c3 := nthC candles (i + 2)
  let c2_range := c2.high - c2.low
  let c1_range := c1.high - c1.low
  let c3_range := c3.high - c3.low
  let avg_range := if 0 < c1_range + c3_range then (c1_range + c3_range) / 2 else 1
  if avg_range * 0.5 < c2_range then none
  else if c1.high < c3.low then
    let gap_size := c3.low - c1.high
    some ⟨"bullish", c3.low, c1.high, (c3.low + c1.high) / 2,
          c1.high + gap_size * 0.382, c2.time, gap_size, c3.close, i⟩
  else if c3.high < c1.low then
    let gap_size := c1.low - c3.high
    some ⟨"bearish", c1.low, c3.high, (c1.low + c3.high) / 2,
          c1.low - gap_size * 0.382, c2.time, gap_size, c3.close, i⟩
  else none

/-- `fvg.detect_fvg(candles)`: the most recent qualifying gap. -/
def detect_fvg (candles : List Candle) : Option FVG :=
  if candles.length < 3 then none
  else ((List.range (candles.length - 2)).filterMap (fvgAt candles)).getLast?

/-! ### `signals/order_block.py` -/

/-- A detected order block (the dict built by `detect_order_block`). -/
structure OB where
  type : String
  top : ℚ
  bottom : ℚ
  entry : ℚ
  price : ℚ
  time : ℚ
  range : ℚ
  move_size : ℚ
  confidence : String
deriving Repr, DecidableEq

/-- `candles[max(0, i-10):i]` in `detect_order_block`. -/
def obPrev (candles : List Candle) (i : Nat) : List Candle :=
  (candles.take i).drop (i - 10)

/-- The 10-candle trailing mean range `avg_range` in `detect_order_block`. -/
def obAvgRange (candles : List Candle) (i : Nat) : ℚ :=
  let ps := obPrev candles i
  (ps.map (fun c => c.high - c.low)).sum / (ps.length : ℚ)

/-- The loop body of `detect_order_block` at index `i`: the qualifying
block there (impulsive follow-through above 1.2× the average range), or
`none`. -/
def obAt (candles : List Candle) (i : Nat) : Option OB :=
  let current := nthC candles i
  let next_candles := (candles.drop (i + 1)).take 3
  if next_candles.length < 2 then none
  else if (obPrev candles i).length < 5 then none
  else
    let avg_range := obAvgRange candles i
    if current.opn < current.close then
      let max_next_high := listMax ((next_candles.take 2).map (·.high))
      let move_up := max_next_high - current.high
      if avg_range * 1.2 < move_up then
        let ob_range := current.high - current.low
        some ⟨"bullish", current.high, current.low, current.low + ob_range * 0.382,
              current.close, current.time, ob_range, move_up,
              if avg_range * 2.0 < move_up then "high" else "medium"⟩
      else none
    else
      let min_next_low := listMin ((next_candles.take 2).map (·.low))
      let move_down := current.low - min_next_low
      if avg_range * 1.2 < |move_down| then
        let ob_range := current.high - current.low
        some ⟨"bearish", current.high, current.low, current.high - ob_range * 0.382,
              current.close, current.time, ob_range, |move_down|,
              if avg_range * 2.0 < |move_down| then "high" else "medium"⟩
      else none

/-- The early-return test of `detect_order_block` at index `i`: the move
exceeds 1.5× the average range. -/
def obStrongAt (candles : List Candle) (i : Nat) : Bool :=
  let current := nthC candles i
  let next_candles := (candles.drop (i + 1)).take 3
  let avg_range := obAvgRange candles i
  if current.opn < current.close then
    decide (avg_range * 1.5 < listMax ((next_candles.take 2).map (·.high)) - current.high)
  else
    decide (avg_range * 1.5 < |current.low - listMin ((next_candles.take 2).map (·.low))|)

/-- The loop of `detect_order_block`: walk the (descending) index list,
return a block immediately when its move exceeds 1.5× the average range,
otherwise collect it and finally return `results[-1]`. -/
def obScan (candles : List Candle) : List Nat → List OB → Option OB
  | [], results => results.getLast?
  | i :: rest, results =>
    match obAt candles i with
    | none => obScan candles rest results
    | some b => if obStrongAt candles i then some b else obScan candles rest (results ++ [b])

/-- `range(len(candles)-5, 3, -1)`, the backward scan order. -/
def obIdxs (len : Nat) : List Nat := ((List.range (len - 8)).map (· + 4)).reverse

/-- `order_block.detect_order_block(candles)`. -/
def detect_order_block (candles : List Candle) : Option OB :=
  if candles.length < 10 then none
  else obScan candles (obIdxs candles.length) []

/-- The selection rule `detect_order_block` actually implements, stated
directly: the most recent block whose move exceeds 1.5× the average range
if one exists, otherwise the oldest qualifying block. -/
def detect_order_block_rule (candles : List Candle) : Option OB :=
  if candles.length < 10 then none
  else
    match (obIdxs candles.length).find? (fun i =>
        (obAt candles i).isSome && obStrongAt candles i) with
    | some i => obAt candles i
    | none => ((obIdxs candles.length).filterMap (obAt candles)).getLast?

/-! ### `signals/breaker.py` -/

/-- A detected breaker block (the dict built by `detect_breaker_block`). -/
structure Breaker where
  type : String
  price : ℚ
  low : ℚ
  high : ℚ
  entry : ℚ
  time : ℚ
  confidence : String
  atr : ℚ
deriving Repr, DecidableEq

/-- `breaker.detect_breaker_block(candles)`. -/
def detect_breaker_block (candles : List Candle) : Option Breaker :=
  if candles.length < 20 then none
  else
    let swings := find_swing_points candles 3 3
    if swings.swing_highs.length < 2 ∨ swings.swing_lows.length < 2 then none
    else
      let atr0 := calculate_atr candles 14
      let atr := if atr0 = 0 then 10.0 else atr0
      let current_price := (nthC candles (candles.length - 1)).close
      let current_time := (nthC candles (candles.length - 1)).time
      let recent_low := (spLast swings.swing_lows 1).price
      let prev_low := (spLast swings.swing_lows 2).price
      let sweptLow := (lastN candles 10).any (fun c => decide (c.low < prev_low))
      if sweptLow && decide (prev_low < current_price) then
        let breaker_range := |prev_low - recent_low|
        some ⟨"bullish", prev_low, min prev_low recent_low, max prev_low recent_low,
              prev_low + breaker_range * 0.382, current_time,
              if sweptLow then "high" else "medium", atr⟩
      else
        let recent_high := (spLast swings.swing_highs 1).price
        let prev_high := (spLast swings.swing_highs 2).price
        let sweptHigh := (lastN candles 10).any (fun c => decide (prev_high < c.high))
        if sweptHigh && decide (current_price < prev_high) then
          let breaker_range := |prev_high - recent_high|
          some ⟨"bearish", prev_high, min prev_high recent_high, max prev_high recent_high,
                prev_high - breaker_range * 0.382, current_time,
                if sweptHigh then "high" else "medium", atr⟩
        else none

/-! ### `signals/risk_manager.py` -/

/-- The state set up by `RiskManager.__init__` (note: `risk_percent` is
stored already divided by 100). -/
structure RiskManager where
  account_balance : ℚ
  risk_percent : ℚ
  commission : ℚ
  slippage : ℚ
  max_risk_amount : ℚ
  max_position_size : ℚ
deriving Repr, DecidableEq

/-- `RiskManager(account_balance, risk_percent, commission, slippage)`. -/
def mkRiskManager (account_balance risk_percent commission slippage : ℚ) : RiskManager :=
  { account_balance := account_balance,
    risk_percent := risk_percent / 100,
    commission := commission,
    slippage := slippage,
    max_risk_amount := account_balance * (risk_percent / 100),
    max_position_size := account_balance * 0.2 }

/-- `RiskManager.calculate_position_size(entry_price, stop_loss)`. -/
def calculate_position_size (rm : RiskManager) (entry_price stop_loss : ℚ) : ℚ :=
  let risk_amount := rm.account_balance * rm.risk_percent
  let sl_distance :=
    if stop_loss < entry_price then entry_price - stop_loss else stop_loss - entry_price
  if sl_distance ≤ 0 then 0
  else
    let position_size := risk_amount / sl_distance
    let adjusted_size := position_size * (1 - rm.commission - rm.slippage)
    let max_units := rm.max_position_size / entry_price
    roundTo 4 (min adjusted_size max_units)

/-! ### `signals/smc_engine.py` -/

/-- The `SignalResult` dataclass. Its `structure` field is a Lean keyword
and is named `struct`; `timestamp` (Python `datetime.now()`) is the clock
value at construction, modelled by the explicit `now` argument below. -/
structure SignalResult where
  mode : String
  signal : String
  direction : String
  confidence : ℤ
  entry_price : ℚ
  stop_loss : ℚ
  take_profit_1 : ℚ
  take_profit_2 : ℚ
  take_profit_3 : ℚ
  struct : String
  liquidity_swept : Bool
  order_block_detected : Bool
  fvg_detected : Bool
  risk_reward_ratio : ℚ
  position_size : ℚ
  explanation : List String
  timestamp : ℚ
deriving Repr, DecidableEq

/-- `SignalResult()` with every dataclass default, stamped at `now`. -/
def defaultSignalResult (now : ℚ) : SignalResult :=
  { mode := "HYBRID", signal := "NO_TRADE", direction := "NO_TRADE", confidence := 0,
    entry_price := 0, stop_loss := 0, take_profit_1 := 0, take_profit_2 := 0,
    take_profit_3 := 0, struct := "unknown", liquidity_swept := false,
    order_block_detected := false, fvg_detected := false, risk_reward_ratio := 0,
    position_size := 0, explanation := [], timestamp := now }

/-- The configuration and candle series held by `ProfessionalSMCEngine`. -/
structure Engine where
  htf : List Candle
  mtf : List Candle
  ltf : List Candle
  account_balance : ℚ
  risk_percent : ℚ
  commission : ℚ
deriving Repr

/-- `self.atr_ltf = calculate_atr(self.ltf, 14) if self.ltf else 0`. -/
def atr_ltf (e : Engine) : ℚ := if e.ltf = [] then 0 else calculate_atr e.ltf 14

/-- `self.atr_mtf`. -/
def atr_mtf (e : Engine) : ℚ := if e.mtf = [] then 0 else calculate_atr e.mtf 14

/-- `self.atr_htf`. -/
def atr_htf (e : Engine) : ℚ := if e.htf = [] then 0 else calculate_atr e.htf 14

/-- `ProfessionalSMCEngine._direction_from_structure`. -/
def direction_from_structure (s : String) : Option String :=
  if s = "bullish" then some "LONG"
  else if s = "bearish" then some "SHORT"
  else none

/-- `ProfessionalSMCEngine._build_trade`: assemble the complete trade
signal (entry at the last LTF close, 1.5-ATR stop, 2×/3×/5× targets),
or a default `SignalResult` when there is no direction or no LTF data. -/
def build_trade (e : Engine) (mode : String) (direction : Option String)
    (confidence : ℤ) (struct : String) (sweep ob fvg : Bool) (now : ℚ) : SignalResult :=
  if direction = none ∨ e.ltf = [] then
    { defaultSignalResult now with
      mode := mode, struct := struct,
      liquidity_swept := sweep, order_block_detected := ob, fvg_detected := fvg }
  else
    let dir := direction.getD ""
    let price := (nthC e.ltf (e.ltf.length - 1)).close
    let atr_to_use := pyOr (atr_ltf e) (pyOr (atr_mtf e) (pyOr (atr_htf e) (price * 0.01)))
    let sl_distance := atr_to_use * 1.5
    let sl := if dir = "LONG" then price - sl_distance else price + sl_distance
    let tp1 := if dir = "LONG" then price + sl_distance * 2 else price - sl_distance * 2
    let tp2 := if dir = "LONG" then price + sl_distance * 3 else price - sl_distance * 3
    let tp3 := if dir = "LONG" then price + sl_distance * 5 else price - sl_distance * 5
    let rr := if dir = "LONG" then
        (if sl < price then (tp1 - price) / (price - sl) else 0)
      else
        (if price < sl then (price - tp1) / (sl - price) else 0)
    let position_size :=
      if 0 < sl_distance then e.account_balance * (e.risk_percent / 100) / sl_distance else 0
    { mode := mode,
      signal := if 60 ≤ confidence then dir else "WEAK_" ++ dir,
      direction := dir,
      confidence := min confidence 100,
      entry_price := roundTo 2 price,
      stop_loss := roundTo 2 sl,
      take_profit_1 := roundTo 2 tp1,
      take_profit_2 := roundTo 2 tp2,
      take_profit_3 := roundTo 2 tp3,
      struct := struct,
      liquidity_swept := sweep,
      order_block_detected := ob,
      fvg_detected := fvg,
      risk_reward_ratio := roundTo 2 rr,
      position_size := roundTo 4 position_size,
      explanation := [],
      timestamp := now }

/-- `ProfessionalSMCEngine._analyze_scalp`. -/
def analyzeScalp (e : Engine) (now : ℚ) : SignalResult :=
  if e.ltf = [] ∨ e.ltf.length < 20 then
    { defaultSignalResult now with
      mode := "SCALP",
      explanation := ["🔍 SCALP Mode Analysis:", "❌ Insufficient LTF data"] }
  else
    let ltf_structure := detect_structure e.ltf
    let ltf_sweep := volume_confirmed_sweep e.ltf
    let ltf_fvg := detect_fvg e.ltf
    let ltf_ob := detect_order_block e.ltf
    let direction := direction_from_structure ltf_structure
    let confidence : ℤ := 40
      + (if ltf_structure = "bullish" ∨ ltf_structure = "bearish" then 10 else 0)
      + (if ltf_sweep then 20 else 0)
      + (if ltf_fvg.isSome then 15 else 0)
      + (if ltf_ob.isSome then 15 else 0)
    let expl := ["🔍 SCALP Mode Analysis:",
        "  LTF Structure: " ++ ltf_structure,
        "  Volume Sweep: " ++ pyBool ltf_sweep,
        "  FVG Detected: " ++ pyBool ltf_fvg.isSome,
        "  OB Detected: " ++ pyBool ltf_ob.isSome]
      ++ (if ltf_sweep then ["  ✓ Volume-confirmed sweep (+20)"] else [])
      ++ (if ltf_fvg.isSome then ["  ✓ FVG detected (+15)"] else [])
      ++ (if ltf_ob.isSome then ["  ✓ Order Block detected (+15)"] else [])
    { build_trade e "SCALP" direction confidence ("LTF:" ++ ltf_structure)
        ltf_sweep ltf_ob.isSome ltf_fvg.isSome now with explanation := expl }

/-- `ProfessionalSMCEngine._analyze_institutional`. -/
def analyzeInstitutional (e : Engine) (now : ℚ) : SignalResult :=
  if e.htf = [] ∨ e.htf.length < 30 then
    { defaultSignalResult now with
      mode := "INSTITUTIONAL",
      explanation := ["🏦 INSTITUTIONAL Mode Analysis:", "❌ Insufficient HTF data"] }
  else
    let htf_structure := detect_structure e.htf
    let htf_ob := detect_order_block e.htf
    let htf_breaker := detect_breaker_block e.htf
    let htf_sweep := volume_confirmed_sweep e.htf
    let htf_mss := detect_mss e.htf
    let direction := direction_from_structure htf_structure
    let confidence : ℤ := 50
      + (if htf_structure = "bullish" ∨ htf_structure = "bearish" then 15 else 0)
      + (if htf_ob.isSome then 15 else 0)
      + (if htf_breaker.isSome then 15 else 0)
      + (if htf_sweep then 15 else 0)
      + (if htf_mss then 10 else 0)
    let expl := ["🏦 INSTITUTIONAL Mode Analysis:",
        "  HTF Structure: " ++ htf_structure,
        "  Order Block: " ++ pyBool htf_ob.isSome,
        "  Breaker Block: " ++ pyBool htf_breaker.isSome,
        "  Volume Sweep: " ++ pyBool htf_sweep,
        "  MSS: " ++ pyBool htf_mss]
      ++ (if htf_ob.isSome then ["  ✓ Order Block detected (+15)"] else [])
      ++ (if htf_breaker.isSome then ["  ✓ Breaker Block detected (+15)"] else [])
      ++ (if htf_sweep then ["  ✓ Volume-confirmed sweep (+15)"] else [])
      ++ (if htf_mss then ["  ✓ Market Structure Shift (+10)"] else [])
    { build_trade e "INSTITUTIONAL" direction confidence ("HTF:" ++ htf_structure)
        htf_sweep htf_ob.isSome false now with explanation := expl }

/-- `ProfessionalSMCEngine._analyze_hybrid`. -/
def analyzeHybrid (e : Engine) (now : ℚ) : SignalResult :=
  if e.htf = [] ∨ e.mtf = [] ∨ e.ltf = [] then
    { defaultSignalResult now with
      mode := "HYBRID",
      explanation := ["🔄 HYBRID Mode Analysis:", "❌ Missing timeframe data"] }
  else
    let htf := detect_structure e.htf
    let mtf := detect_structure e.mtf
    let ltf := detect_structure e.ltf
    let aligned :=
      if htf = mtf ∧ mtf = ltf ∧ (htf = "bullish" ∨ htf = "bearish") then
        (direction_from_structure htf, (85 : ℤ), ["  ✓ Full alignment detected (+85)"])
      else if htf = mtf ∧ (htf = "bullish" ∨ htf = "bearish") ∧ ltf = "ranging" then
        (direction_from_structure htf, (70 : ℤ), ["  ✓ HTF/MTF alignment (+70)"])
      else if htf = "bullish" ∨ htf = "bearish" then
        (direction_from_structure htf, (60 : ℤ), ["  ✓ HTF direction only (+60)"])
      else ((none : Option String), (40 : ℤ), ([] : List String))
    let direction := aligned.1
    let confidence0 := aligned.2.1
    let sweepConfirm := direction.isSome &&
      (volume_confirmed_sweep e.htf || volume_confirmed_sweep e.mtf)
    let confidence1 := if sweepConfirm then min 95 (confidence0 + 10) else confidence0
    let obConfirm := direction.isSome &&
      ((detect_order_block e.htf).isSome || (detect_order_block e.mtf).isSome)
    let confidence2 := if obConfirm then min 95 (confidence1 + 10) else confidence1
    let expl := ["🔄 HYBRID Mode Analysis:",
        "  HTF: " ++ htf, "  MTF: " ++ mtf, "  LTF: " ++ ltf]
      ++ aligned.2.2
      ++ (if sweepConfirm then ["  ✓ Volume sweep confirmation (+10)"] else [])
      ++ (if obConfirm then ["  ✓ Order block confirmation (+10)"] else [])
    { build_trade e "HYBRID" direction confidence2
        ("HTF:" ++ htf ++ " | MTF:" ++ mtf ++ " | LTF:" ++ ltf)
        false false false now with explanation := expl }

/-- The dictionary returned by `analyze_all`. -/
structure AllResults where
  scalp : SignalResult
  institutional : SignalResult
  hybrid : SignalResult
deriving Repr, DecidableEq

/-- `ProfessionalSMCEngine.analyze_all`. -/
def analyze_all (e : Engine) (now : ℚ) : AllResults :=
  ⟨analyzeScalp e now, analyzeInstitutional e now, analyzeHybrid e now⟩

/-- `ProfessionalSMCEngine.analyze_best`: `max(results.values(), key=conf)`
keeps the earliest result on ties (scalp, institutional, hybrid order);
a best below confidence 50 is replaced by the hybrid result. -/
def analyze_best (e : Engine) (now : ℚ) : SignalResult :=
  let rs := analyze_all e now
  let best := [rs.institutional, rs.hybrid].foldl
    (fun b x => if b.confidence < x.confidence then x else b) rs.scalp
  if best.confidence < 50 then rs.hybrid else best

/-- `timestamp`-stripping used to state determinism-modulo-clock. -/
def stripTime (r : SignalResult) : SignalResult := { r with timestamp := 0 }

/-- `stripTime` applied to all three mode results. -/
def stripTime3 (rs : AllResults) : AllResults :=
  ⟨stripTime rs.scalp, stripTime rs.institutional, stripTime rs.hybrid⟩

/-- The default-result shape the orchestrator degrades to: `NO_TRADE`
signal with zero confidence and zero prices. -/
def isDefaultNoTrade (r : SignalResult) : Prop :=
  r.signal = "NO_TRADE" ∧ r.confidence = 0 ∧ r.entry_price = 0 ∧ r.stop_loss = 0 ∧
  r.take_profit_1 = 0 ∧ r.take_profit_2 = 0 ∧ r.take_profit_3 = 0 ∧ r.position_size = 0

instance (r : SignalResult) : Decidable (isDefaultNoTrade r) := by
  unfold isDefaultNoTrade; infer_instance

/-! ### Concrete inputs used by witnesses and counterexamples -/

/-- A candle of range 10 at high `h`: bearish body (`close < open`), used to
build series that trigger no order block (flat follow-through) and no FVG
(every middle-candle range equals the outer average). -/
def mkC (t h : ℚ) : Candle := ⟨t, h - 2, h, h - 10, h - 8, none⟩

/-- A 20-candle LTF series with strictly rising swing highs (104 at index 4,
105 at index 12) and rising swing lows (90.5 at index 8, 93 at index 15):
`detect_structure` reports `bullish` while no sweep, FVG or order block is
detected, so the SCALP confidence is exactly 50. -/
def ltf20 : List Candle :=
  [mkC 0 100, mkC 1 101, mkC 2 102, mkC 3 103, mkC 4 104, mkC 5 103.5, mkC 6 102.5,
   mkC 7 101.5, mkC 8 100.5, mkC 9 101.2, mkC 10 102.2, mkC 11 103.2, mkC 12 105,
   mkC 13 104.5, mkC 14 103.8, mkC 15 103, mkC 16 103.4, mkC 17 103.6, mkC 18 103.7,
   mkC 19 103.75]

/-- `ltf20` with candles 10 and 11 reshaped into a small middle candle and a
gap (the low 101.3 of candle 11 exceeds the high 101.2 of candle 9), creating one
bullish FVG at triple index 9 while keeping the same bullish swing
structure and still no order block or sweep. -/
def ltf20b : List Candle :=
  [mkC 0 100, mkC 1 101, mkC 2 102, mkC 3 103, mkC 4 104, mkC 5 103.5, mkC 6 102.5,
   mkC 7 101.5, mkC 8 100.5, mkC 9 101.2,
   ⟨10, 101.9, 102, 101.5, 101.6, none⟩,
   ⟨11, 103, 103.2, 101.3, 101.5, none⟩,
   mkC 12 105, mkC 13 104.5, mkC 14 103.8, mkC 15 103, mkC 16 103.4, mkC 17 103.6,
   mkC 18 103.7, mkC 19 103.75]

/-- A candle with volume, used by the sweep counterexample. -/
def mkV (t h l c v : ℚ) : Candle := ⟨t, 96, h, l, c, some v⟩

/-- 20 candles whose last wick pierces the 9-candle envelope (high 105 over
100, close 99 back inside) with every trailing volume 10 and last volume 14
— 40% above the trailing average, i.e. more than the 30% excess of the claim
but not more than the 50% of the code. -/
def lc20 : List Candle :=
  (List.range 19).map (fun i => mkV i 100 90 95 10) ++ [mkV 19 105 95 99 14]

/-- Filler candle for the order-block counterexample: bearish, range 10,
flat lows, so it can neither be an order block nor feed an impulsive move. -/
def baseC (t : ℚ) : Candle := ⟨t, 100, 105, 95, 95, none⟩

/-- 16 candles with exactly two qualifying (never strong) bullish order
blocks: index 6 followed by a 13-point move and index 11 followed by a
14-point move, over an identical average range of 10. The backward scan
collects both and returns `results[-1]` — the older, smaller-move block. -/
def obCex : List Candle :=
  [baseC 0, baseC 1, baseC 2, baseC 3, baseC 4, baseC 5,
   ⟨6, 96, 105, 95, 104, none⟩,
   ⟨7, 109, 118, 108, 117, none⟩,
   baseC 8, baseC 9, baseC 10,
   ⟨11, 96, 105, 95, 104, none⟩,
   ⟨12, 110, 119, 109, 118, none⟩,
   baseC 13, baseC 14, baseC 15]

/-- A minimal bullish-FVG triple: outer ranges 1, middle range 0.2, and
the low of candle 3 (11) exceeding the high of candle 1 (10) by a gap of 1. -/
def fvgW : List Candle :=
  [⟨0, 9.5, 10, 9, 9.2, none⟩, ⟨1, 10.1, 10.2, 10, 10.1, none⟩,
   ⟨2, 11.5, 12, 11, 11.8, none⟩]

/-- The sawtooth price at index `i` of a rise-then-fall series peaking at
`n`: `min i (2n - i)`. -/
def sawVal (n i : Nat) : ℚ := ((min i (2 * n - i) : ℕ) : ℚ)

/-- The sawtooth series for windows `l`/`r`: prices rise for `l + r + 1`
steps and fall for the same number, every OHLC field equal to the sawtooth
value. -/
def sawtooth (l r : Nat) : List Candle :=
  (List.range (2 * (l + r + 1) + 1)).map fun i =>
    let v := sawVal (l + r + 1) i
    ⟨v, v, v, v, v, none⟩

/-- The engine input used by the SCALP-mode witnesses: only the LTF series
is populated. -/
def engLtf (ltf : List Candle) : Engine := ⟨[], [], ltf, 10000, 1, 0.001⟩

/-! ## Theorems -/

attribute [local semireducible] Rat.mul Rat.add Rat.sub Rat.inv Rat.ofScientific

/-- C1: `calculate_position_size` equals
`min(balance × risk_fraction / |entry − stop| × (1 − commission − slippage),
balance × 0.2 / entry)` rounded to 4 decimals for every `entry ≠ stop`, and
at the documented configuration (balance 10000, risk 1%, commission 0.001,
slippage 0.0005, entry 50000, stop 49000) it returns exactly 0.04. -/
theorem c1_position_size (bal rp com sl entry stop : ℚ) (h : entry ≠ stop) :
    calculate_position_size (mkRiskManager bal rp com sl) entry stop
      = roundTo 4 (min (bal * (rp / 100) / |entry - stop| * (1 - com - sl))
          (bal * 0.2 / entry))
    ∧ calculate_position_size (mkRiskManager 10000 1 0.001 0.0005) 50000 49000 = 0.04 := by
  constructor
  · simp only [calculate_position_size, mkRiskManager]
    rcases lt_or_gt_of_ne h with hlt | hgt
    · rw [if_neg (not_lt.mpr hlt.le), if_neg (by linarith), abs_sub_comm,
        abs_of_pos (by linarith : (0 : ℚ) < stop - entry)]
    · rw [if_pos hgt, if_neg (by linarith),
        abs_of_pos (by linarith : (0 : ℚ) < entry - stop)]
  · decide

/-- Witness for C1 at the concrete configuration of the spec. -/
theorem c1_witness :
    calculate_position_size (mkRiskManager 10000 1 0.001 0.0005) 50000 49000 = 0.04 :=
  (c1_position_size 10000 1 0.001 0.0005 50000 49000 (by norm_num)).2

/-- C2 counterexample: the SCALP analysis of `ltf20` produces a result with
confidence 50 (< 60) whose signal is `WEAK_LONG`, not `NO_TRADE` as the
claim requires below confidence 60. -/
theorem c2_counterexample :
    (analyzeScalp (engLtf ltf20) 0).confidence = 50 ∧
    (analyzeScalp (engLtf ltf20) 0).signal = "WEAK_LONG" := by
  decide

/-- C2 amended: the signal label is `NO_TRADE` when there is no direction
(or no LTF data); otherwise it is the plain direction at confidence ≥ 60
and `WEAK_<DIR>` below 60 — no `STRONG_` label and no `NO_TRADE` demotion
at low confidence exist. -/
theorem c2_signal_label (e : Engine) (mode : String) (direction : Option String)
    (confidence : ℤ) (struct : String) (sweep ob fvg : Bool) (now : ℚ) :
    (build_trade e mode direction confidence struct sweep ob fvg now).signal =
      if direction = none ∨ e.ltf = [] then "NO_TRADE"
      else if 60 ≤ confidence then direction.getD ""
      else "WEAK_" ++ direction.getD "" := by
  by_cases h : direction = none ∨ e.ltf = []
  · simp only [build_trade, if_pos h]; rfl
  · simp only [build_trade, if_neg h]

/-- `build_trade` uses the clock only for the `timestamp` field. -/
theorem stripTime_build_trade (e : Engine) (mode : String) (direction : Option String)
    (confidence : ℤ) (struct : String) (sweep ob fvg : Bool) (ex : List String) (t : ℚ) :
    stripTime { build_trade e mode direction confidence struct sweep ob fvg t with
        explanation := ex }
      = stripTime { build_trade e mode direction confidence struct sweep ob fvg 0 with
        explanation := ex } := by
  unfold build_trade
  split
  · rfl
  · rfl

/-- `_analyze_scalp` uses the clock only for the `timestamp` field. -/
theorem stripTime_analyzeScalp (e : Engine) (t : ℚ) :
    stripTime (analyzeScalp e t) = stripTime (analyzeScalp e 0) := by
  unfold analyzeScalp
  split
  · rfl
  · exact stripTime_build_trade e "SCALP" _ _ _ _ _ _ _ t

/-- `_analyze_institutional` uses the clock only for `timestamp`. -/
theorem stripTime_analyzeInstitutional (e : Engine) (t : ℚ) :
    stripTime (analyzeInstitutional e t) = stripTime (analyzeInstitutional e 0) := by
  unfold analyzeInstitutional
  split
  · rfl
  · exact stripTime_build_trade e "INSTITUTIONAL" _ _ _ _ _ _ _ t

/-- `_analyze_hybrid` uses the clock only for `timestamp`. -/
theorem stripTime_analyzeHybrid (e : Engine) (t : ℚ) :
    stripTime (analyzeHybrid e t) = stripTime (analyzeHybrid e 0) := by
  unfold analyzeHybrid
  split
  · rfl
  · exact stripTime_build_trade e "HYBRID" _ _ _ _ _ _ _ t

/-- C3 counterexample: two invocations of the analysis on identical candle
series and identical configuration, at different wall-clock instants,
produce results that are not equal in every field (the `timestamp` field
differs), so the result is not entirely reconstructible from the candles
and configuration alone. -/
theorem c3_counterexample :
    analyze_all ⟨[], [], [], 10000, 1, 0.001⟩ 0 ≠ analyze_all ⟨[], [], [], 10000, 1, 0.001⟩ 1 := by
  decide

/-- C3 amended: every field of every mode result except `timestamp` is
determined by the candle series and the configuration alone — stripping
`timestamp`, two invocations at any two clock instants agree exactly. -/
theorem c3_deterministic_modulo_timestamp (e : Engine) (t1 t2 : ℚ) :
    stripTime3 (analyze_all e t1) = stripTime3 (analyze_all e t2) := by
  unfold analyze_all stripTime3
  rw [stripTime_analyzeScalp e t1, stripTime_analyzeScalp e t2,
    stripTime_analyzeInstitutional e t1, stripTime_analyzeInstitutional e t2,
    stripTime_analyzeHybrid e t1, stripTime_analyzeHybrid e t2]

/-- Gate: `detect_liquidity_sweep` is neutral below 10 candles. -/
theorem detect_liquidity_sweep_short (c : List Candle) (h : c.length < 10) :
    detect_liquidity_sweep c = false := by
  unfold detect_liquidity_sweep; rw [if_pos h]

/-- Gate: `volume_confirmed_sweep` is neutral below 20 candles. -/
theorem volume_confirmed_sweep_short (c : List Candle) (h : c.length < 20) :
    volume_confirmed_sweep c = false := by
  unfold volume_confirmed_sweep; rw [if_pos h]

/-- Gate: `detect_fvg` is neutral below 3 candles. -/
theorem detect_fvg_short (c : List Candle) (h : c.length < 3) :
    detect_fvg c = none := by
  unfold detect_fvg; rw [if_pos h]

/-- Gate: `detect_order_block` is neutral below 10 candles. -/
theorem detect_order_block_short (c : List Candle) (h : c.length < 10) :
    detect_order_block c = none := by
  unfold detect_order_block; rw [if_pos h]

/-- Gate: `detect_breaker_block` is neutral below 20 candles. -/
theorem detect_breaker_block_short (c : List Candle) (h : c.length < 20) :
    detect_breaker_block c = none := by
  unfold detect_breaker_block; rw [if_pos h]

/-- Gate: `detect_structure` is neutral below 10 candles. -/
theorem detect_structure_short (c : List Candle) (h : c.length < 10) :
    detect_structure c = "ranging" := by
  unfold detect_structure; rw [if_pos h]

/-- Gate: `detect_mss` is neutral below 10 candles. -/
theorem detect_mss_short (c : List Candle) (h : c.length < 10) :
    detect_mss c = false := by
  unfold detect_mss; rw [if_pos h]

/-- Gate: `calculate_atr` fails soft to 0 below `period + 1` candles. -/
theorem calculate_atr_short (c : List Candle) (p : Nat) (h : c.length < p + 1) :
    calculate_atr c p = 0 := by
  unfold calculate_atr; rw [if_pos h]

/-- A short LTF series sends `_analyze_scalp` to its default result. -/
theorem analyzeScalp_default (e : Engine) (t : ℚ) (h : e.ltf.length < 20) :
    isDefaultNoTrade (analyzeScalp e t) := by
  unfold analyzeScalp
  rw [if_pos (Or.inr h)]
  exact ⟨rfl, rfl, rfl, rfl, rfl, rfl, rfl, rfl⟩

/-- A short HTF series sends `_analyze_institutional` to its default. -/
theorem analyzeInstitutional_default (e : Engine) (t : ℚ) (h : e.htf.length < 30) :
    isDefaultNoTrade (analyzeInstitutional e t) := by
  unfold analyzeInstitutional
  rw [if_pos (Or.inr h)]
  exact ⟨rfl, rfl, rfl, rfl, rfl, rfl, rfl, rfl⟩

/-- With every series shorter than 10 candles, `_analyze_hybrid` finds only
`ranging` structures, no direction, and degrades to its default result. -/
theorem analyzeHybrid_default (e : Engine) (t : ℚ) (hh : e.htf.length < 10)
    (hm : e.mtf.length < 10) (hl : e.ltf.length < 10) :
    isDefaultNoTrade (analyzeHybrid e t) := by
  unfold analyzeHybrid
  split
  · exact ⟨rfl, rfl, rfl, rfl, rfl, rfl, rfl, rfl⟩
  · rw [detect_structure_short e.htf hh, detect_structure_short e.mtf hm,
      detect_structure_short e.ltf hl]
    exact ⟨rfl, rfl, rfl, rfl, rfl, rfl, rfl, rfl⟩

/-- C4: every detector returns its neutral value (false / none / `ranging`
/ 0) on series shorter than its minimum length, and the orchestrator, for
any combination of empty or short (< 10 candle) series, returns for each
mode a complete default result — `NO_TRADE` signal with zero confidence
and zero prices — rather than raising (the embedding is total). -/
theorem c4_insufficient_data :
    (∀ c : List Candle, c.length < 10 → detect_liquidity_sweep c = false)
  ∧ (∀ c : List Candle, c.length < 20 → volume_confirmed_sweep c = false)
  ∧ (∀ c : List Candle, c.length < 3 → detect_fvg c = none)
  ∧ (∀ c : List Candle, c.length < 10 → detect_order_block c = none)
  ∧ (∀ c : List Candle, c.length < 20 → detect_breaker_block c = none)
  ∧ (∀ c : List Candle, c.length < 10 → detect_structure c = "ranging")
  ∧ (∀ c : List Candle, c.length < 10 → detect_mss c = false)
  ∧ (∀ (c : List Candle) (p : Nat), c.length < p + 1 → calculate_atr c p = 0)
  ∧ (∀ (e : Engine) (t : ℚ), e.htf.length < 10 → e.mtf.length < 10 → e.ltf.length < 10 →
      isDefaultNoTrade (analyzeScalp e t) ∧ isDefaultNoTrade (analyzeInstitutional e t) ∧
      isDefaultNoTrade (analyzeHybrid e t)) := by
  refine ⟨detect_liquidity_sweep_short, volume_confirmed_sweep_short, detect_fvg_short,
    detect_order_block_short, detect_breaker_block_short, detect_structure_short,
    detect_mss_short, calculate_atr_short, ?_⟩
  intro e t hh hm hl
  exact ⟨analyzeScalp_default e t (by omega), analyzeInstitutional_default e t (by omega),
    analyzeHybrid_default e t hh hm hl⟩

/-- Witness for C4: the orchestrator on three empty series yields default
results in every mode, and short series leave every detector neutral. -/
theorem c4_witness :
    (isDefaultNoTrade (analyzeScalp ⟨[], [], [], 10000, 1, 0.001⟩ 0) ∧
     isDefaultNoTrade (analyzeInstitutional ⟨[], [], [], 10000, 1, 0.001⟩ 0) ∧
     isDefaultNoTrade (analyzeHybrid ⟨[], [], [], 10000, 1, 0.001⟩ 0)) ∧
    detect_liquidity_sweep [dfltCandle] = false ∧ detect_fvg [dfltCandle] = none := by
  refine ⟨c4_insufficient_data.2.2.2.2.2.2.2.2 ⟨[], [], [], 10000, 1, 0.001⟩ 0
      (by decide) (by decide) (by decide),
    c4_insufficient_data.1 [dfltCandle] (by decide),
    c4_insufficient_data.2.2.1 [dfltCandle] (by decide)⟩

/-- C5 counterexample: on `ltf20b` the SCALP analysis has an available
zone entry — a detected lower-timeframe FVG whose entry is 101.2382 — yet
the produced entry price is the current close 95.75, not the average of
the available zone entries (which would be 101.2382). -/
theorem c5_counterexample :
    (detect_fvg ltf20b).map (fun f => f.entry) = some 101.2382 ∧
    (analyzeScalp (engLtf ltf20b) 0).direction = "LONG" ∧
    (analyzeScalp (engLtf ltf20b) 0).fvg_detected = true ∧
    (analyzeScalp (engLtf ltf20b) 0).entry_price = 95.75 ∧
    (101.2382 : ℚ) ≠ 95.75 := by
  decide

/-- C5 amended: whenever a trade is built (a direction exists and LTF data
is present), the entry price is always the last LTF close rounded to 2
decimals; zone entries (FVG / order block / breaker) are never consulted. -/
theorem c5_entry_is_close (e : Engine) (mode : String) (direction : Option String)
    (confidence : ℤ) (struct : String) (sweep ob fvg : Bool) (now : ℚ)
    (hd : direction ≠ none) (hl : e.ltf ≠ []) :
    (build_trade e mode direction confidence struct sweep ob fvg now).entry_price
      = roundTo 2 ((nthC e.ltf (e.ltf.length - 1)).close) := by
  unfold build_trade
  rw [if_neg (by simp [hd, hl])]

/-- Witness for C5 at a concrete trade-producing call. -/
theorem c5_witness :
    (build_trade (engLtf ltf20) "SCALP" (some "LONG") 50 "LTF:bullish" false false false 0).entry_price
      = roundTo 2 ((nthC (engLtf ltf20).ltf ((engLtf ltf20).ltf.length - 1)).close) :=
  c5_entry_is_close (engLtf ltf20) "SCALP" (some "LONG") 50 "LTF:bullish" false false false 0
    (by decide) (by decide)

/-- C6 counterexample: `lc20` has a detected sweep with volume data whose
last volume (14) exceeds the trailing average (10) by 40% — more than the
30% threshold of the claim — yet `volume_confirmed_sweep` reports `false` (and
it reports only a boolean, never a wick-dominance strength score). -/
theorem c6_counterexample :
    detect_liquidity_sweep lc20 = true ∧
    vcsHasVolume lc20 = true ∧
    vcsAvg lc20 = 10 ∧ vcsLastVol lc20 = 14 ∧
    vcsLastVol lc20 > (13 / 10) * vcsAvg lc20 ∧
    volume_confirmed_sweep lc20 = false := by
  decide

/-- C6 amended: `volume_confirmed_sweep` returns only a boolean: on a
series of ≥ 20 candles with a detected sweep, volume data present and a
nonempty positive trailing-volume list, it is `true` exactly when the last
last volume exceeds the trailing average by more than 50% (the 1.5×
gate), and no strength score is computed. -/
theorem c6_volume_threshold (c : List Candle) (h20 : 20 ≤ c.length)
    (hs : detect_liquidity_sweep c = true) (hv : vcsHasVolume c = true)
    (hne : vcsVols c ≠ []) :
    volume_confirmed_sweep c = decide (vcsAvg c * 1.5 < vcsLastVol c) := by
  unfold volume_confirmed_sweep
  rw [if_neg (by omega), hs, hv]
  simp only [Bool.not_true, Bool.false_eq_true, if_false, if_neg hne]

/-- Witness for C6 at the concrete series `lc20`. -/
theorem c6_witness :
    volume_confirmed_sweep lc20 = decide (vcsAvg lc20 * 1.5 < vcsLastVol lc20) :=
  c6_volume_threshold lc20 (by decide) (by decide) (by decide) (by decide)

/-- The backward scan of `detect_order_block`, characterised: it returns
the first (most recent) strong block if any, else the last collected —
i.e. oldest — qualifying block after the accumulator. -/
theorem obScan_eq (c : List Candle) (idxs : List Nat) (acc : List OB) :
    obScan c idxs acc =
      match idxs.find? (fun i => (obAt c i).isSome && obStrongAt c i) with
      | some i => obAt c i
      | none => (acc ++ idxs.filterMap (obAt c)).getLast? := by
  induction idxs generalizing acc with
  | nil => simp [obScan]
  | cons i rest ih =>
    cases hob : obAt c i with
    | none =>
      simp only [obScan, hob]
      rw [ih, List.find?_cons_of_neg _ (by simp [hob]), List.filterMap_cons_none hob]
    | some b =>
      cases hstr : obStrongAt c i with
      | true =>
        simp only [obScan, hob, hstr, if_true]
        rw [List.find?_cons_of_pos _ (by simp [hob, hstr])]
        simp [hob]
      | false =>
        simp only [obScan, hob, hstr, Bool.false_eq_true, if_false]
        rw [ih, List.find?_cons_of_neg _ (by simp [hob, hstr])]
        cases hf : rest.find? (fun j => (obAt c j).isSome && obStrongAt c j) with
        | some k => simp [hf]
        | none => simp [hf, List.filterMap_cons_some hob, List.append_assoc]

/-- C7 counterexample: on `obCex` two blocks qualify over the same average
range 10 — a recent one at index 11 with move 14 and an older one at index
6 with move 13 — and `detect_order_block` returns the older, *smaller*
relative-move block, not the most significant one. -/
theorem c7_counterexample :
    detect_order_block obCex = some ⟨"bullish", 105, 95, 98.82, 104, 6, 10, 13, "medium"⟩ ∧
    obAt obCex 11 = some ⟨"bullish", 105, 95, 98.82, 104, 11, 10, 14, "medium"⟩ ∧
    obAvgRange obCex 6 = obAvgRange obCex 11 ∧
    (13 : ℚ) < 14 := by
  decide

/-- C7 amended: `detect_order_block` scans indices `len−5 .. 4` backward
for candles whose direction is followed (within the next 2 candles) by a
move exceeding 1.2× the 10-candle average range; it returns the most
recent block whose move exceeds 1.5× the average immediately, otherwise
the *oldest* qualifying block; confidence is `high` exactly when the move
exceeds 2.0× the average range and `medium` otherwise. -/
theorem c7_order_block (c : List Candle) :
    detect_order_block c = detect_order_block_rule c
  ∧ (∀ i b, obAt c i = some b →
      (b.confidence = "high" ∨ b.confidence = "medium") ∧
      (b.confidence = "high" ↔ obAvgRange c i * 2.0 < b.move_size)) := by
  constructor
  · unfold detect_order_block detect_order_block_rule
    split
    · rfl
    · rw [obScan_eq]
      cases hf : (obIdxs c.length).find? (fun i => (obAt c i).isSome && obStrongAt c i) with
      | some k => simp [hf]
      | none => simp [hf]
  · intro i b hb
    unfold obAt at hb
    dsimp only at hb
    split at hb
    · exact absurd hb (by simp)
    · split at hb
      · exact absurd hb (by simp)
      · split at hb
        · split at hb
          · injection hb with h
            subst h
            refine ⟨?_, ?_⟩
            · dsimp only
              by_cases hc : obAvgRange c i * 2.0 <
                  listMax (List.map (fun x => x.high) (List.take 2 (List.take 3 (List.drop (i + 1) c))))
                    - (nthC c i).high
              · rw [if_pos hc]; exact Or.inl rfl
              · rw [if_neg hc]; exact Or.inr rfl
            · dsimp only
              by_cases hc : obAvgRange c i * 2.0 <
                  listMax (List.map (fun x => x.high) (List.take 2 (List.take 3 (List.drop (i + 1) c))))
                    - (nthC c i).high
              · rw [if_pos hc]; exact iff_of_true rfl hc
              · rw [if_neg hc]; exact iff_of_false (by decide) hc
          · exact absurd hb (by simp)
        · split at hb
          · injection hb with h
            subst h
            refine ⟨?_, ?_⟩
            · dsimp only
              by_cases hc : obAvgRange c i * 2.0 <
                  |(nthC c i).low - listMin (List.map (fun x => x.low)
                    (List.take 2 (List.take 3 (List.drop (i + 1) c))))|
              · rw [if_pos hc]; exact Or.inl rfl
              · rw [if_neg hc]; exact Or.inr rfl
            · dsimp only
              by_cases hc : obAvgRange c i * 2.0 <
                  |(nthC c i).low - listMin (List.map (fun x => x.low)
                    (List.take 2 (List.take 3 (List.drop (i + 1) c))))|
              · rw [if_pos hc]; exact iff_of_true rfl hc
              · rw [if_neg hc]; exact iff_of_false (by decide) hc
          · exact absurd hb (by simp)

/-- Witness for C7: the characterisation applied to `obCex` and one of its
qualifying blocks. -/
theorem c7_witness :
    detect_order_block obCex = detect_order_block_rule obCex ∧
    ((⟨"bullish", 105, 95, 98.82, 104, 11, 10, 14, "medium"⟩ : OB).confidence = "high" ∨
     (⟨"bullish", 105, 95, 98.82, 104, 11, 10, 14, "medium"⟩ : OB).confidence = "medium") :=
  ⟨(c7_order_block obCex).1,
   ((c7_order_block obCex).2 11 ⟨"bullish", 105, 95, 98.82, 104, 11, 10, 14, "medium"⟩
     (by decide)).1⟩

/-- The Python scan range membership: `l ≤ a` with a full right window. -/
theorem mem_swingIdxs (len l r a : Nat) : a ∈ swingIdxs len l r ↔ l ≤ a ∧ a + r < len := by
  unfold swingIdxs
  simp only [List.mem_map, List.mem_range]
  constructor
  · rintro ⟨k, hk, rfl⟩; omega
  · rintro ⟨h1, h2⟩; exact ⟨a - l, by omega, by omega⟩

/-- The swing-high window test, in propositional form: strictly above every
neighbouring high in the asymmetric `l`/`r` window. -/
theorem isSwingHighAt_iff (highs : List ℚ) (l r i : Nat) :
    isSwingHighAt highs l r i = true ↔
      (∀ j, 1 ≤ j → j ≤ l → nthQ highs (i - j) < nthQ highs i) ∧
      (∀ j, 1 ≤ j → j ≤ r → nthQ highs (i + j) < nthQ highs i) := by
  unfold isSwingHighAt
  simp only [Bool.and_eq_true, List.all_eq_true, List.mem_range, decide_eq_true_eq]
  constructor
  · rintro ⟨h1, h2⟩
    refine ⟨fun j hj1 hjl => ?_, fun j hj1 hjr => ?_⟩
    · have := h1 (j - 1) (by omega)
      rwa [Nat.sub_add_cancel hj1] at this
    · have := h2 (j - 1) (by omega)
      rwa [Nat.sub_add_cancel hj1] at this
  · rintro ⟨h1, h2⟩
    exact ⟨fun j hj => h1 (j + 1) (by omega) (by omega),
      fun j hj => h2 (j + 1) (by omega) (by omega)⟩

/-- The swing-low window test, in propositional form. -/
theorem isSwingLowAt_iff (lows : List ℚ) (l r i : Nat) :
    isSwingLowAt lows l r i = true ↔
      (∀ j, 1 ≤ j → j ≤ l → nthQ lows i < nthQ lows (i - j)) ∧
      (∀ j, 1 ≤ j → j ≤ r → nthQ lows i < nthQ lows (i + j)) := by
  unfold isSwingLowAt
  simp only [Bool.and_eq_true, List.all_eq_true, List.mem_range, decide_eq_true_eq]
  constructor
  · rintro ⟨h1, h2⟩
    refine ⟨fun j hj1 hjl => ?_, fun j hj1 hjr => ?_⟩
    · have := h1 (j - 1) (by omega)
      rwa [Nat.sub_add_cancel hj1] at this
    · have := h2 (j - 1) (by omega)
      rwa [Nat.sub_add_cancel hj1] at this
  · rintro ⟨h1, h2⟩
    exact ⟨fun j hj => h1 (j + 1) (by omega) (by omega),
      fun j hj => h2 (j + 1) (by omega) (by omega)⟩

/-- Membership in the reported swing highs, characterised: exactly the
indices with a full window whose high is the strict maximum of that
window, with the matching price and time. -/
theorem mem_swing_highs_iff (candles : List Candle) (l r : Nat) (p : SwingPoint) :
    p ∈ (find_swing_points candles l r).swing_highs ↔
      l ≤ p.index ∧ p.index + r < candles.length ∧
      p.price = nthQ (candles.map (·.high)) p.index ∧
      p.time = (nthC candles p.index).time ∧
      (∀ j, 1 ≤ j → j ≤ l →
        nthQ (candles.map (·.high)) (p.index - j) < nthQ (candles.map (·.high)) p.index) ∧
      (∀ j, 1 ≤ j → j ≤ r →
        nthQ (candles.map (·.high)) (p.index + j) < nthQ (candles.map (·.high)) p.index) := by
  unfold find_swing_points
  dsimp only
  rw [List.mem_filterMap]
  constructor
  · rintro ⟨a, ha, hf⟩
    rw [mem_swingIdxs] at ha
    by_cases hsw : isSwingHighAt (candles.map (·.high)) l r a = true
    · rw [if_pos hsw] at hf
      injection hf with hf
      subst hf
      rw [isSwingHighAt_iff] at hsw
      exact ⟨ha.1, ha.2, rfl, rfl, hsw.1, hsw.2⟩
    · rw [if_neg hsw] at hf
      cases hf
  · rintro ⟨h1, h2, hp, ht, hwl, hwr⟩
    refine ⟨p.index, (mem_swingIdxs _ _ _ _).mpr ⟨h1, h2⟩, ?_⟩
    rw [if_pos ((isSwingHighAt_iff _ _ _ _).mpr ⟨hwl, hwr⟩)]
    cases p
    simp only at hp ht
    rw [hp, ht]

/-- Indexing a mapped range list. -/
theorem nthQ_map_range (f : Nat → ℚ) (m i : Nat) (h : i < m) :
    nthQ ((List.range m).map f) i = f i := by
  unfold nthQ
  rw [List.getD_eq_getElem?_getD, List.getElem?_map, List.getElem?_range h]
  rfl

/-- The length of the sawtooth. -/
theorem sawtooth_length (l r : Nat) : (sawtooth l r).length = 2 * (l + r + 1) + 1 := by
  simp [sawtooth]

/-- The sawtooth highs are the sawtooth values. -/
theorem sawtooth_high (l r i : Nat) (h : i < 2 * (l + r + 1) + 1) :
    nthQ ((sawtooth l r).map (·.high)) i = sawVal (l + r + 1) i := by
  unfold sawtooth
  rw [List.map_map]
  exact nthQ_map_range _ _ _ h

/-- The sawtooth lows are the sawtooth values. -/
theorem sawtooth_low (l r i : Nat) (h : i < 2 * (l + r + 1) + 1) :
    nthQ ((sawtooth l r).map (·.low)) i = sawVal (l + r + 1) i := by
  unfold sawtooth
  rw [List.map_map]
  exact nthQ_map_range _ _ _ h

/-- The sawtooth candle times are the sawtooth values. -/
theorem sawtooth_time (l r i : Nat) (h : i < 2 * (l + r + 1) + 1) :
    (nthC (sawtooth l r) i).time = sawVal (l + r + 1) i := by
  unfold sawtooth nthC
  rw [List.getD_eq_getElem?_getD, List.getElem?_map, List.getElem?_range h]
  rfl

/-- Comparison of sawtooth values reduces to the underlying naturals. -/
theorem sawVal_lt_iff (n a b : Nat) :
    sawVal n a < sawVal n b ↔ min a (2 * n - a) < min b (2 * n - b) := by
  unfold sawVal
  exact_mod_cast Iff.rfl

/-- C9: an index is reported as a swing high iff its high is strictly
greater than every high `left_bars` back and `right_bars` forward (a single
equal neighbour disqualifies it — the comparison is strict), with the
analogous strict rule for swing lows; consequently, on the sawtooth series
that rises `l + r + 1` steps and falls the same, exactly the single
interior peak is a swing high and no index is a swing low. -/
theorem c9_swing_strictness :
    (∀ (candles : List Candle) (l r : Nat) (p : SwingPoint),
        p ∈ (find_swing_points candles l r).swing_highs ↔
          l ≤ p.index ∧ p.index + r < candles.length ∧
          p.price = nthQ (candles.map (·.high)) p.index ∧
          p.time = (nthC candles p.index).time ∧
          (∀ j, 1 ≤ j → j ≤ l →
            nthQ (candles.map (·.high)) (p.index - j) < nthQ (candles.map (·.high)) p.index) ∧
          (∀ j, 1 ≤ j → j ≤ r →
            nthQ (candles.map (·.high)) (p.index + j) < nthQ (candles.map (·.high)) p.index))
  ∧ (∀ l r : Nat, 1 ≤ l → 1 ≤ r →
      (∀ p : SwingPoint, p ∈ (find_swing_points (sawtooth l r) l r).swing_highs ↔
          p = ⟨l + r + 1, ((l + r + 1 : ℕ) : ℚ), ((l + r + 1 : ℕ) : ℚ)⟩)
      ∧ (find_swing_points (sawtooth l r) l r).swing_lows = []) := by
  refine ⟨mem_swing_highs_iff, ?_⟩
  intro l r hl hr
  set n := l + r + 1 with hn
  constructor
  · intro p
    rw [mem_swing_highs_iff, sawtooth_length]
    constructor
    · rintro ⟨h1, h2, hp, ht, hwl, hwr⟩
      obtain ⟨idx, price, time⟩ := p
      simp only at h1 h2 hp ht hwl hwr ⊢
      have hidx : idx = n := by
        by_contra hne
        rcases Nat.lt_or_ge idx n with hlt | hge
        · have hb := hwr 1 le_rfl hr
          rw [sawtooth_high l r _ (by omega), sawtooth_high l r _ (by omega),
            sawVal_lt_iff] at hb
          omega
        · have hb := hwl 1 le_rfl hl
          rw [sawtooth_high l r _ (by omega), sawtooth_high l r _ (by omega),
            sawVal_lt_iff] at hb
          omega
      subst hidx
      rw [sawtooth_high l r _ (by omega)] at hp
      rw [sawtooth_time l r _ (by omega)] at ht
      have hv : sawVal n n = ((n : ℕ) : ℚ) := by
        unfold sawVal
        congr 1
        omega
      rw [hv] at hp ht
      rw [hp, ht]
    · rintro rfl
      dsimp only
      refine ⟨by omega, by omega, ?_, ?_, ?_, ?_⟩
      · rw [sawtooth_high l r _ (by omega)]
        unfold sawVal
        congr 1
        omega
      · rw [sawtooth_time l r _ (by omega)]
        unfold sawVal
        congr 1
        omega
      · intro j hj1 hjl
        rw [sawtooth_high l r _ (by omega), sawtooth_high l r _ (by omega), sawVal_lt_iff]
        omega
      · intro j hj1 hjr
        rw [sawtooth_high l r _ (by omega), sawtooth_high l r _ (by omega), sawVal_lt_iff]
        omega
  · unfold find_swing_points
    dsimp only
    rw [List.filterMap_eq_nil_iff]
    intro a ha
    rw [mem_swingIdxs, sawtooth_length] at ha
    have hcond : ¬ (isSwingLowAt ((sawtooth l r).map (·.low)) l r a = true) := by
      rw [isSwingLowAt_iff]
      rintro ⟨hL, hR⟩
      rcases le_or_lt a n with hle | hgt
      · have hb := hL 1 le_rfl hl
        rw [sawtooth_low l r _ (by omega), sawtooth_low l r _ (by omega),
          sawVal_lt_iff] at hb
        omega
      · have hb := hR 1 le_rfl hr
        rw [sawtooth_low l r _ (by omega), sawtooth_low l r _ (by omega),
          sawVal_lt_iff] at hb
        omega
    exact if_neg hcond

/-- Witness for C9: the sawtooth with a 1/1 window — the peak at index 3
is the unique swing high and there are no swing lows. -/
theorem c9_witness :
    ((⟨3, ((3 : ℕ) : ℚ), ((3 : ℕ) : ℚ)⟩ : SwingPoint)
        ∈ (find_swing_points (sawtooth 1 1) 1 1).swing_highs ↔
      (⟨3, ((3 : ℕ) : ℚ), ((3 : ℕ) : ℚ)⟩ : SwingPoint)
        = ⟨1 + 1 + 1, ((1 + 1 + 1 : ℕ) : ℚ), ((1 + 1 + 1 : ℕ) : ℚ)⟩) ∧
    (find_swing_points (sawtooth 1 1) 1 1).swing_lows = [] :=
  ⟨(c9_swing_strictness.2 1 1 (by decide) (by decide)).1 ⟨3, ((3 : ℕ) : ℚ), ((3 : ℕ) : ℚ)⟩,
   (c9_swing_strictness.2 1 1 (by decide) (by decide)).2⟩

/-- C8: for a triple at `i` passing the indecision filter (middle range at
most 50% of the outer average) with a bullish gap `g > 0` between candle
the high of candle 1 and the low of candle 3, and no later triple recording a gap,
`detect_fvg` returns a bullish gap with `top − bottom = g` and entry
`bottom + 0.382 × g` — the most recent qualifying gap. -/
theorem c8_fvg_round_trip (c : List Candle) (i : Nat) (h2 : i + 2 < c.length)
    (hmid : (nthC c (i + 1)).high - (nthC c (i + 1)).low ≤
      (((nthC c i).high - (nthC c i).low) +
        ((nthC c (i + 2)).high - (nthC c (i + 2)).low)) / 2 * 0.5)
    (hgap : (nthC c i).high < (nthC c (i + 2)).low)
    (hlater : ∀ j, i < j → j < c.length - 2 → fvgAt c j = none) :
    ∃ f : FVG, detect_fvg c = some f ∧ f.type = "bullish" ∧
      f.top - f.bottom = (nthC c (i + 2)).low - (nthC c i).high ∧
      f.entry = f.bottom + 0.382 * ((nthC c (i + 2)).low - (nthC c i).high) := by
  have hfi : fvgAt c i = some ⟨"bullish", (nthC c (i + 2)).low, (nthC c i).high,
      ((nthC c (i + 2)).low + (nthC c i).high) / 2,
      (nthC c i).high + ((nthC c (i + 2)).low - (nthC c i).high) * 0.382,
      (nthC c (i + 1)).time, (nthC c (i + 2)).low - (nthC c i).high,
      (nthC c (i + 2)).close, i⟩ := by
    unfold fvgAt
    dsimp only
    have hfilter : ¬ ((if 0 < ((nthC c i).high - (nthC c i).low) +
          ((nthC c (i + 2)).high - (nthC c (i + 2)).low) then
          (((nthC c i).high - (nthC c i).low) +
            ((nthC c (i + 2)).high - (nthC c (i + 2)).low)) / 2 else 1) * 0.5 <
        (nthC c (i + 1)).high - (nthC c (i + 1)).low) := by
      by_cases hpos : 0 < ((nthC c i).high - (nthC c i).low) +
          ((nthC c (i + 2)).high - (nthC c (i + 2)).low)
      · rw [if_pos hpos]
        exact not_lt.mpr hmid
      · rw [if_neg hpos]
        push_neg at hpos
        intro hcon
        have h05 : ((1 : ℚ) * 0.5) = 0.5 := by norm_num
        rw [h05] at hcon
        nlinarith [hmid, hpos]
    rw [if_neg hfilter, if_pos hgap]
  refine ⟨⟨"bullish", (nthC c (i + 2)).low, (nthC c i).high,
      ((nthC c (i + 2)).low + (nthC c i).high) / 2,
      (nthC c i).high + ((nthC c (i + 2)).low - (nthC c i).high) * 0.382,
      (nthC c (i + 1)).time, (nthC c (i + 2)).low - (nthC c i).high,
      (nthC c (i + 2)).close, i⟩, ?_, rfl, rfl, by dsimp only; ring⟩
  unfold detect_fvg
  rw [if_neg (by omega)]
  rw [show c.length - 2 = (i + 1) + (c.length - 2 - (i + 1)) by omega,
    List.range_add, List.filterMap_append]
  have hnil : ((List.range (c.length - 2 - (i + 1))).map (fun x => (i + 1) + x)).filterMap
      (fvgAt c) = [] := by
    rw [List.filterMap_eq_nil_iff]
    intro a ha
    simp only [List.mem_map, List.mem_range] at ha
    obtain ⟨x, hx, rfl⟩ := ha
    exact hlater _ (by omega) (by omega)
  rw [hnil, List.append_nil, List.range_succ, List.filterMap_append]
  have hone : List.filterMap (fvgAt c) [i] = [⟨"bullish", (nthC c (i + 2)).low,
      (nthC c i).high, ((nthC c (i + 2)).low + (nthC c i).high) / 2,
      (nthC c i).high + ((nthC c (i + 2)).low - (nthC c i).high) * 0.382,
      (nthC c (i + 1)).time, (nthC c (i + 2)).low - (nthC c i).high,
      (nthC c (i + 2)).close, i⟩] := by
    simp [hfi]
  rw [hone, List.getLast?_concat]

/-- Witness for C8 on the concrete triple `fvgW` (gap 1 at index 0). -/
theorem c8_witness :
    ∃ f : FVG, detect_fvg fvgW = some f ∧ f.type = "bullish" ∧
      f.top - f.bottom = (nthC fvgW 2).low - (nthC fvgW 0).high ∧
      f.entry = f.bottom + 0.382 * ((nthC fvgW 2).low - (nthC fvgW 0).high) := by
  refine c8_fvg_round_trip fvgW 0 (by decide) (by decide) (by decide) ?_
  intro j hj1 hj2
  have hlen : fvgW.length = 3 := rfl
  exact absurd hj2 (by omega)

/-- `_build_trade` always labels the result with the requested mode. -/
theorem build_trade_mode (e : Engine) (mode : String) (direction : Option String)
    (confidence : ℤ) (struct : String) (sweep ob fvg : Bool) (now : ℚ) :
    (build_trade e mode direction confidence struct sweep ob fvg now).mode = mode := by
  unfold build_trade
  split
  · rfl
  · rfl

/-- The SCALP analysis is always tagged `SCALP`. -/
theorem analyzeScalp_mode (e : Engine) (t : ℚ) : (analyzeScalp e t).mode = "SCALP" := by
  unfold analyzeScalp
  split
  · rfl
  · dsimp only
    exact build_trade_mode _ _ _ _ _ _ _ _ _

/-- The INSTITUTIONAL analysis is always tagged `INSTITUTIONAL`. -/
theorem analyzeInstitutional_mode (e : Engine) (t : ℚ) :
    (analyzeInstitutional e t).mode = "INSTITUTIONAL" := by
  unfold analyzeInstitutional
  split
  · rfl
  · dsimp only
    exact build_trade_mode _ _ _ _ _ _ _ _ _

/-- The HYBRID analysis is always tagged `HYBRID`. -/
theorem analyzeHybrid_mode (e : Engine) (t : ℚ) : (analyzeHybrid e t).mode = "HYBRID" := by
  unfold analyzeHybrid
  split
  · rfl
  · dsimp only
    exact build_trade_mode _ _ _ _ _ _ _ _ _

/-- C10: `analyze_best` returns one of the three mode results; when the
maximal confidence is below 50 it returns the HYBRID result, otherwise a
result carrying exactly the maximal confidence; consequently a SCALP or
INSTITUTIONAL result is only ever returned with confidence ≥ 50. -/
theorem c10_analyze_best (e : Engine) (now : ℚ) :
    (analyze_best e now = analyzeScalp e now ∨
     analyze_best e now = analyzeInstitutional e now ∨
     analyze_best e now = analyzeHybrid e now)
  ∧ (max (analyzeScalp e now).confidence
        (max (analyzeInstitutional e now).confidence (analyzeHybrid e now).confidence) < 50 →
      analyze_best e now = analyzeHybrid e now)
  ∧ (50 ≤ max (analyzeScalp e now).confidence
        (max (analyzeInstitutional e now).confidence (analyzeHybrid e now).confidence) →
      (analyze_best e now).confidence = max (analyzeScalp e now).confidence
        (max (analyzeInstitutional e now).confidence (analyzeHybrid e now).confidence))
  ∧ (((analyze_best e now).mode = "SCALP" ∨ (analyze_best e now).mode = "INSTITUTIONAL") →
      50 ≤ (analyze_best e now).confidence) := by
  have hhm := analyzeHybrid_mode e now
  unfold analyze_best analyze_all
  simp only [List.foldl_cons, List.foldl_nil]
  set s := analyzeScalp e now with hs
  set ii := analyzeInstitutional e now with hi
  set h := analyzeHybrid e now with hh
  split_ifs with h1 h2 h3 h4 h5 h6 <;>
    refine ⟨?_, fun hm => ?_, fun hm => ?_, fun hm => ?_⟩ <;>
    first
      | exact Or.inl rfl
      | exact Or.inr (Or.inl rfl)
      | exact Or.inr (Or.inr rfl)
      | rfl
      | omega
      | exact absurd hm (by omega)
      | (rcases hm with hm | hm <;> rw [hhm] at hm <;> exact absurd hm (by decide))

/-- Witness for C10: on `ltf20`-only input the SCALP result wins with
confidence exactly 50, so the returned SCALP signal has confidence ≥ 50. -/
theorem c10_witness : 50 ≤ (analyze_best (engLtf ltf20) 0).confidence :=
  (c10_analyze_best (engLtf ltf20) 0).2.2.2 (Or.inl (by decide))
